import Mathlib

/-!
Verification of the copra RPC framework's server dispatcher, server builder,
example echo service, and the protoc-rust-caper path-prefix helper, against a
shallow embedding of the Rust sources.

Conventions of the embedding:
* `Bytes` (Rust `bytes::Bytes`) is a list of byte values (`List Nat`).
* Rust futures that are constructed already resolved (`Ok(..).into_future()`,
  `Result::into_future`) are embedded as their resolved `Except` values; the
  combinators `and_then` / `then` become `Except.bind` / plain application.
* Rust `io::Result<T>` becomes `Except IoError T`.
-/

/-- Opaque payload bytes (Rust `bytes::Bytes`); one list element per byte. -/
abbrev Bytes := List Nat

/-- `Bytes::new()`: the empty byte buffer. -/
def Bytes.new : Bytes := []

/-- Modelled from the spec: the per-call `Controller` (module
`copra/src/controller.rs` is not under src/): "a mutable per-call bag —
attachment bytes, deadline (monotonic instant or absent), last error text"
(§3).  `Controller::default()` is the all-empty bag. -/
structure Controller where
  attachment : Bytes := []
  deadline : Option Nat := none
  last_error : String := ""
deriving DecidableEq, Repr

/-- `Controller::default()`. -/
def Controller.default : Controller := {}

/-- Modelled from the spec: `RpcRequestMeta` (the generated `message` module is
not under src/): "RequestMeta: { service_name: string, method_name: string,
correlation_id: u64, ... }" (§3).  Only the fields the server module reads are
carried. -/
structure RpcRequestMeta where
  service_name : String
  method_name : String
  correlation_id : Nat
deriving DecidableEq, Repr

/-- `RpcRequestMeta::get_service_name`. -/
def RpcRequestMeta.get_service_name (m : RpcRequestMeta) : String := m.service_name

/-- `RpcRequestMeta::get_method_name`. -/
def RpcRequestMeta.get_method_name (m : RpcRequestMeta) : String := m.method_name

/-- Modelled from the spec: `RpcResponseMeta` (the generated `message` module
is not under src/): "ResponseMeta: { correlation_id: u64, error_code: i32
(0 = success), optional error_text: string, ... }" (§3).  Protobuf `new()`
defaults every field (numeric 0, empty string). -/
structure RpcResponseMeta where
  correlation_id : Nat := 0
  error_code : Int := 0
  error_text : String := ""
deriving DecidableEq, Repr

/-- `RpcResponseMeta::new()`: all fields at their protobuf defaults. -/
def RpcResponseMeta.new : RpcResponseMeta := {}

/-- `RpcResponseMeta::set_error_code`. -/
def RpcResponseMeta.set_error_code (m : RpcResponseMeta) (c : Int) : RpcResponseMeta :=
  { m with error_code := c }

/-- `RpcResponseMeta::set_error_text`. -/
def RpcResponseMeta.set_error_text (m : RpcResponseMeta) (t : String) : RpcResponseMeta :=
  { m with error_text := t }

/-- Modelled from the spec: `MethodError` (module `copra/src/service.rs` is not
under src/).  §7 lists the taxonomy "MethodError: UnknownMethod,
UnknownService, HandlerFailed(message)"; the server module additionally uses
`MethodError::UnknownError` (src/copra/src/server/mod.rs line 81). -/
inductive MethodError where
  | UnknownError : MethodError
  | UnknownMethod : MethodError
  | UnknownService : MethodError
  | HandlerFailed : String → MethodError
deriving DecidableEq, Repr

/-- Rust `std::io::Error`; the payload is irrelevant, the dispatcher never
constructs one. -/
structure IoError where
  msg : String
deriving DecidableEq, Repr

/-- `RequestPackage = (RpcRequestMeta, Controller, Bytes)` from the `message`
module. -/
abbrev RequestPackage := RpcRequestMeta × Controller × Bytes

/-- `ResponsePackage = (RpcResponseMeta, Controller, Bytes)` from the `message`
module. -/
abbrev ResponsePackage := RpcResponseMeta × Controller × Bytes

/-- The type-erased handler contract (spec §3): `(bytes, Controller) →
lazy((bytes, Controller) | MethodError)`, with the lazy result embedded as its
resolved value. -/
abbrev Handler := Bytes × Controller → Except MethodError (Bytes × Controller)

/-- Modelled from the spec: the dispatcher's `ServiceRegistry` (module
`copra/src/dispatcher.rs` is not under src/): "mapping service_name →
{ mapping method_name → handler-factory }", with
"lookup(service_name, method_name) → handler | NotFound" (§3, §4.4). -/
structure ServiceRegistry where
  get_method : String → String → Option Handler

/-- `result_to_errno` (src/copra/src/server/mod.rs lines 266-281): translate a
handler outcome into an `io::Result<ResponsePackage>`.  Success keeps body and
controller with `error_code = 0`; every error is collapsed to `error_code = 1`,
fixed text `"Unknown error"`, a default controller and an empty body. -/
def result_to_errno (result : Except MethodError (Bytes × Controller)) :
    Except IoError ResponsePackage :=
  match result with
  | Except.ok (body, controller) =>
      let meta := RpcResponseMeta.new.set_error_code 0
      Except.ok (meta, controller, body)
  | Except.error _ =>
      let meta := (RpcResponseMeta.new.set_error_code 1).set_error_text "Unknown error"
      Except.ok (meta, Controller.default, Bytes.new)

/-- The server-side meta service wrapping the shared registry
(src/copra/src/server/mod.rs lines 57-66). -/
structure MetaService where
  registry : ServiceRegistry

/-- `MetaService::call` (src/copra/src/server/mod.rs lines 74-95): look the
method up in the registry (absence becomes `MethodError::UnknownError`), invoke
it on `(body, controller)`, and translate the outcome with `result_to_errno`. -/
def MetaService.call (self : MetaService) (req : RequestPackage) :
    Except IoError ResponsePackage :=
  let (meta, controller, body) := req
  let service :=
    match self.registry.get_method meta.get_service_name meta.get_method_name with
    | some s => Except.ok s
    | none => Except.error MethodError.UnknownError
  result_to_errno (service.bind (fun service => service (body, controller)))

/-- Wire protocols the server can speak (src/copra/src/server/mod.rs line 210
uses `Protocol::Brpc` and `Protocol::Http`). -/
inductive Protocol where
  | Brpc : Protocol
  | Http : Protocol
deriving DecidableEq, Repr

/-- Rust `std::net::AddrParseError`: an opaque, payload-free parse failure. -/
inductive AddrParseError where
  | mk : AddrParseError
deriving DecidableEq, Repr, Fintype

/-- A parsed socket address (Rust `std::net::SocketAddr`); its structure is
irrelevant to the server module. -/
structure SocketAddr where
  ip : Nat
  port : Nat
deriving DecidableEq, Repr

/-- `ServerBuildError` (src/copra/src/server/mod.rs lines 110-114): the error
raised when building a server.  The source declares exactly one variant,
`AddrParseError`. -/
inductive ServerBuildError where
  | AddrParseError : AddrParseError → ServerBuildError
deriving DecidableEq, Repr, Fintype

/-- `ServerBuilder` (src/copra/src/server/mod.rs lines 148-156); unset options
are `None`.  `Arc<AtomicUsize>` and `Remote` are modelled by their carried
values. -/
structure ServerBuilder where
  services : ServiceRegistry
  addr : String
  threads : Option Nat := none
  protocols : Option (List Protocol) := none
  idle_secs : Option Nat := none
  remote : Option Unit := none
  throughput : Option Nat := none

/-- `Server` (src/copra/src/server/mod.rs lines 239-246), with the listener's
configuration (`threads`, `protocols`, `idle_secs`, the bound address) carried
as flat fields. -/
structure Server where
  services : ServiceRegistry
  addr : SocketAddr
  threads : Nat
  protocols : List Protocol
  idle_secs : Nat
  finished : Nat
  throughput : Nat
  remote : Option Unit

/-- `ServerBuilder::build` (src/copra/src/server/mod.rs lines 206-234).
Address parsing is the standard library's `str::parse`, passed in as `parse`;
it is the only fallible step of `build` (`TcpServer::new` merely records the
address, no socket is bound here).  Defaults: 1 thread, protocols
`[Brpc, Http]`, 60 s idle timeout, fresh zero counters. -/
def ServerBuilder.build (parse : String → Except AddrParseError SocketAddr)
    (self : ServerBuilder) : Except ServerBuildError Server :=
  match parse self.addr with
  | Except.error e => Except.error (ServerBuildError.AddrParseError e)
  | Except.ok socket_addr =>
      Except.ok
        { services := self.services
          addr := socket_addr
          threads := self.threads.getD 1
          protocols := self.protocols.getD [Protocol.Brpc, Protocol.Http]
          idle_secs := self.idle_secs.getD 60
          finished := 0
          throughput := self.throughput.getD 0
          remote := self.remote }

/-- Modelled from the spec: `EchoRequest` (generated protobuf message, not
under src/) with its single `msg` field, as read by the example handlers. -/
structure EchoRequest where
  msg : String
deriving DecidableEq, Repr

/-- Modelled from the spec: `EchoResponse` (generated protobuf message, not
under src/) with its single `msg` field. -/
structure EchoResponse where
  msg : String
deriving DecidableEq, Repr

namespace Echo

/-- `Echo::echo` (src/examples/echo/main.rs lines 137-144): answer with the
request's `msg` unchanged, in an immediately-resolved successful future. -/
def echo (msg : EchoRequest) : Except MethodError EchoResponse :=
  Except.ok { msg := msg.msg }

/-- `Echo::rev_echo` (src/examples/echo/main.rs lines 146-155): answer with
`msg.chars().rev().collect()`, the reversal of the request's Unicode scalar
values, in an immediately-resolved successful future. -/
def rev_echo (msg : EchoRequest) : Except MethodError EchoResponse :=
  Except.ok { msg := String.mk msg.msg.data.reverse }

end Echo

/-- `remove_dot_slash` (src/protoc-rust-caper/src/lib.rs lines 106-114).
Strings are byte lists rendered as character lists; `"."` becomes `""`, a
leading `"./"` or `".\"` is dropped, anything else is returned unchanged. -/
def remove_dot_slash (path : List Char) : List Char :=
  if path = ['.'] then []
  else if path.take 2 = ['.', '/'] ∨ path.take 2 = ['.', '\\'] then path.drop 2
  else path

/-- The trailing-separator strip applied to the non-empty include path in
`remove_path_prefix` (src/protoc-rust-caper/src/lib.rs lines 124-126): drop
one final `/` or `\`. -/
def strip_trailing_sep (p : List Char) : List Char :=
  if p.getLast? = some '/' ∨ p.getLast? = some '\\' then p.dropLast else p

/-- The include path as `remove_path_prefix` actually compares it: dot-slash
stripped, then one trailing separator stripped. -/
def normalize_pre (p : List Char) : List Char :=
  strip_trailing_sep (remove_dot_slash p)

/-- `remove_path_prefix` (src/protoc-rust-caper/src/lib.rs lines 116-141):
after dot-slash stripping both arguments, an empty include matches everything;
otherwise the include loses one trailing separator and must be a proper prefix
of the path followed by a separator byte, which is consumed. -/
def remove_path_prefix (path0 pre0 : List Char) : Option (List Char) :=
  let path := remove_dot_slash path0
  let pre1 := remove_dot_slash pre0
  if pre1 = [] then some path
  else
    let pre := strip_trailing_sep pre1
    if pre <+: path then
      if path.length ≤ pre.length then none
      else if path[pre.length]? = some '/' ∨ path[pre.length]? = some '\\' then
        some (path.drop (pre.length + 1))
      else none
    else none

/-! ### Concrete fixtures shared by witnesses and counterexamples -/

/-- A registry with no methods at all. -/
def emptyRegistry : ServiceRegistry := ⟨fun _ _ => none⟩

/-- A registry in which every lookup finds a handler that fails. -/
def failingRegistry : ServiceRegistry :=
  ⟨fun _ _ => some (fun _ => Except.error MethodError.UnknownError)⟩

/-- A visibly non-default controller. -/
def sampleController : Controller :=
  { attachment := [1], deadline := some 5, last_error := "mine" }

/-- The response meta built by the error branch of `result_to_errno`. -/
def errnoErrorMeta : RpcResponseMeta :=
  (RpcResponseMeta.new.set_error_code 1).set_error_text "Unknown error"

/-! ### C3: successful handler outcomes -/

/-- Claim C3: for every handler invocation that resolves successfully with
output bytes `b` and controller `c`, `result_to_errno` composes a response
package whose meta has `error_code = 0`, whose body is exactly `b`, and whose
controller is exactly the controller `c` that flowed through the handler. -/
theorem result_to_errno_success (b : Bytes) (c : Controller) :
    ∃ m : RpcResponseMeta,
      result_to_errno (Except.ok (b, c)) = Except.ok (m, c, b) ∧ m.error_code = 0 :=
  ⟨RpcResponseMeta.new.set_error_code 0, rfl, rfl⟩

/-! ### C4: handler outcomes never become transport errors -/

/-- Claim C4: for every possible handler outcome (success or `MethodError`),
`result_to_errno` returns `Ok` with a response frame and never an `io::Error`,
so a handler failure cannot reach the error branch of the server-side call
future and tear down the connection. -/
theorem result_to_errno_total (r : Except MethodError (Bytes × Controller)) :
    ∃ pkg : ResponsePackage, result_to_errno r = Except.ok pkg := by
  cases r with
  | ok v =>
      obtain ⟨b, c⟩ := v
      exact ⟨_, rfl⟩
  | error e => exact ⟨_, rfl⟩

/-! ### C2: the error branch ignores which MethodError occurred -/

/-- Counterexample to claim C2 as stated: `UnknownMethod` and `UnknownService`
are distinct `MethodError` values, yet `result_to_errno` maps them to equal
responses (in particular equal `error_text`), so distinct errors do not yield
distinct `error_text` strings. -/
theorem result_to_errno_error_text_collision :
    MethodError.UnknownMethod ≠ MethodError.UnknownService ∧
    result_to_errno (Except.error MethodError.UnknownMethod) =
      result_to_errno (Except.error MethodError.UnknownService) ∧
    (result_to_errno (Except.error MethodError.UnknownMethod) =
      Except.ok (errnoErrorMeta, Controller.default, Bytes.new)) ∧
    errnoErrorMeta.error_text = "Unknown error" := by
  refine ⟨by decide, rfl, rfl, rfl⟩

/-- Claim C2 (amended): for every handler invocation that fails with a
`MethodError e`, `result_to_errno` produces a response whose `error_code` is 1
and whose `error_text` is the fixed string `"Unknown error"`, independent of
`e`; distinct `MethodError` values therefore yield identical responses. -/
theorem result_to_errno_error_fixed (e : MethodError) :
    ∃ m : RpcResponseMeta,
      result_to_errno (Except.error e) = Except.ok (m, Controller.default, Bytes.new) ∧
      m.error_code = 1 ∧ m.error_text = "Unknown error" :=
  ⟨errnoErrorMeta, rfl, rfl, rfl⟩

/-! ### C5: the controller survives success but not failure -/

/-- Counterexample to claim C5 as stated: a call that flows a visibly
non-default controller into a failing handler comes back with
`Controller::default()`, not with the controller created for the call. -/
theorem controller_replaced_on_error :
    sampleController ≠ Controller.default ∧
    MetaService.call ⟨failingRegistry⟩
        (⟨"Echo", "fail", 1⟩, sampleController, [2]) =
      Except.ok (errnoErrorMeta, Controller.default, Bytes.new) := by
  refine ⟨by decide, rfl⟩

/-- Claim C5 (amended): on the success path the controller that flowed through
the handler is returned unchanged alongside the response; on the error path it
is discarded and `Controller::default()` is returned in its place. -/
theorem result_to_errno_controller_paths (b : Bytes) (c : Controller) (e : MethodError) :
    (∃ m, result_to_errno (Except.ok (b, c)) = Except.ok (m, c, b)) ∧
    (∃ m, result_to_errno (Except.error e) =
      Except.ok (m, Controller.default, Bytes.new)) :=
  ⟨⟨_, rfl⟩, ⟨_, rfl⟩⟩

/-! ### C1: unknown methods answer with the generic error code 1 -/

/-- Counterexample to claim C1 as stated: the request `("Echo", "nope")`
against a registry without that method is answered (the connection is not
dropped), but with `error_code = 1` — the generic `UNKNOWN_ERROR` code — not
with a reserved `UNKNOWN_METHOD` value distinct from 1. -/
theorem unknown_method_gets_code_one :
    MetaService.call ⟨emptyRegistry⟩ (⟨"Echo", "nope", 7⟩, Controller.default, [120]) =
      Except.ok (errnoErrorMeta, Controller.default, Bytes.new) ∧
    errnoErrorMeta.error_code = 1 := by
  refine ⟨rfl, rfl⟩

/-- Claim C1 (amended): for every inbound request whose
`(service_name, method_name)` pair is not present in the registry, the
dispatcher produces an `Ok` response (rather than dropping the connection)
whose `error_code` is 1 — the same code as the generic `UNKNOWN_ERROR` — with
text `"Unknown error"`; no distinct `UNKNOWN_METHOD` code is produced. -/
theorem unknown_method_response (reg : ServiceRegistry) (meta : RpcRequestMeta)
    (ctrl : Controller) (body : Bytes)
    (h : reg.get_method meta.service_name meta.method_name = none) :
    ∃ m : RpcResponseMeta,
      MetaService.call ⟨reg⟩ (meta, ctrl, body) =
        Except.ok (m, Controller.default, Bytes.new) ∧
      m.error_code = 1 ∧ m.error_text = "Unknown error" := by
  refine ⟨errnoErrorMeta, ?_, rfl, rfl⟩
  simp [MetaService.call, RpcRequestMeta.get_service_name,
    RpcRequestMeta.get_method_name, h, Except.bind, result_to_errno, errnoErrorMeta]

/-- Witness for the amended claim C1 at the concrete request
`("Echo", "nope")` against the empty registry. -/
theorem unknown_method_response_witness :
    ∃ m : RpcResponseMeta,
      MetaService.call ⟨emptyRegistry⟩ (⟨"Echo", "nope", 9⟩, sampleController, [1, 2]) =
        Except.ok (m, Controller.default, Bytes.new) ∧
      m.error_code = 1 ∧ m.error_text = "Unknown error" :=
  unknown_method_response emptyRegistry ⟨"Echo", "nope", 9⟩ sampleController [1, 2] rfl

/-! ### C6: build can only fail on address parsing -/

/-- Address parsing that always fails, standing in for an unparseable
configured address. -/
def parseFail : String → Except AddrParseError SocketAddr :=
  fun _ => Except.error AddrParseError.mk

/-- Address parsing that always succeeds, standing in for a well-formed
configured address. -/
def parseOk : String → Except AddrParseError SocketAddr :=
  fun _ => Except.ok ⟨0, 0⟩

/-- A builder with no options set. -/
def sampleBuilder : ServerBuilder :=
  { services := emptyRegistry, addr := "127.0.0.1:8000" }

/-- Counterexample to claim C6 as stated: `ServerBuildError` has exactly one
value shape (`AddrParseError`), so no `Bind` variant exists, and `build` on a
builder whose address parses succeeds outright — no socket is bound during
`build`, hence no bind failure can be reported. -/
theorem server_build_error_has_no_bind_variant :
    Fintype.card ServerBuildError = 1 ∧
    sampleBuilder.build parseOk =
      Except.ok
        { services := emptyRegistry, addr := ⟨0, 0⟩, threads := 1,
          protocols := [Protocol.Brpc, Protocol.Http], idle_secs := 60,
          finished := 0, throughput := 0, remote := none } ∧
    sampleBuilder.build parseFail =
      Except.error (ServerBuildError.AddrParseError AddrParseError.mk) := by
  refine ⟨by decide, rfl, rfl⟩

/-- Claim C6 (amended): `ServerBuilder::build` returns its sole
`ServerBuildError::AddrParseError` variant exactly when the configured address
string fails to parse, and succeeds exactly when parsing succeeds; no `Bind`
variant exists and no socket is bound during `build`. -/
theorem server_build_parse_only (parse : String → Except AddrParseError SocketAddr)
    (b : ServerBuilder) :
    ((∃ s, b.build parse = Except.ok s) ↔ (∃ a, parse b.addr = Except.ok a)) ∧
    (∀ e, parse b.addr = Except.error e →
      b.build parse = Except.error (ServerBuildError.AddrParseError e)) := by
  unfold ServerBuilder.build
  cases h : parse b.addr with
  | error e => simp [h]
  | ok a => simp [h]

/-- Witness for the amended claim C6: the sample builder under the failing
parse yields the address-parse error, and under the succeeding parse builds. -/
theorem server_build_parse_only_witness :
    sampleBuilder.build parseFail =
      Except.error (ServerBuildError.AddrParseError AddrParseError.mk) :=
  (server_build_parse_only parseFail sampleBuilder).2 AddrParseError.mk rfl

/-! ### C7: builder defaults -/

/-- Claim C7: on any builder whose `threads` and `idle_secs` options were never
set, `build` configures exactly 1 reactor thread and a 60-second idle timeout;
options that were set are used unchanged. -/
theorem server_build_defaults (parse : String → Except AddrParseError SocketAddr)
    (b : ServerBuilder) (s : Server) (h : b.build parse = Except.ok s) :
    (b.threads = none → s.threads = 1) ∧
    (∀ n, b.threads = some n → s.threads = n) ∧
    (b.idle_secs = none → s.idle_secs = 60) ∧
    (∀ t, b.idle_secs = some t → s.idle_secs = t) := by
  unfold ServerBuilder.build at h
  cases hp : parse b.addr with
  | error e => rw [hp] at h; cases h
  | ok a =>
      rw [hp] at h
      cases h
      refine ⟨fun hn => ?_, fun n hn => ?_, fun hi => ?_, fun t hi => ?_⟩
      · simp [hn]
      · simp [hn]
      · simp [hi]
      · simp [hi]

/-- The server produced by building the sample builder with all options unset. -/
def sampleBuiltServer : Server :=
  { services := emptyRegistry, addr := ⟨0, 0⟩, threads := 1,
    protocols := [Protocol.Brpc, Protocol.Http], idle_secs := 60,
    finished := 0, throughput := 0, remote := none }

/-- Witness for claim C7: building the sample builder (options unset) under
the succeeding parse yields 1 thread and a 60-second idle timeout. -/
theorem server_build_defaults_witness :
    sampleBuiltServer.threads = 1 ∧ sampleBuiltServer.idle_secs = 60 :=
  ⟨(server_build_defaults parseOk sampleBuilder sampleBuiltServer rfl).1 rfl,
   (server_build_defaults parseOk sampleBuilder sampleBuiltServer rfl).2.2.1 rfl⟩

/-! ### C8: rev_echo reverses the message -/

/-- Claim C8: the example `rev_echo` handler answers with the character-wise
reversal of the request's `msg`; in particular `"abcdef"` yields `"fedcba"`. -/
theorem rev_echo_reverses :
    (∀ req : EchoRequest, ∃ resp : EchoResponse,
        Echo.rev_echo req = Except.ok resp ∧ resp.msg.data = req.msg.data.reverse) ∧
    Echo.rev_echo { msg := "abcdef" } = Except.ok { msg := "fedcba" } := by
  exact ⟨fun req => ⟨_, rfl, rfl⟩, rfl⟩

/-! ### C9: rev_echo is an involution agreeing with echo -/

/-- Claim C9: feeding `rev_echo`'s answer back into `rev_echo` returns the
original message, and the composite agrees with a single application of
`echo`: character-wise reversal is an involution. -/
theorem rev_echo_involution (req : EchoRequest) :
    (Echo.rev_echo req).bind (fun resp => Echo.rev_echo { msg := resp.msg }) =
      Echo.echo req := by
  show Except.ok (EchoResponse.mk
      (String.mk (String.mk req.msg.data.reverse).data.reverse)) = _
  rw [show (String.mk req.msg.data.reverse).data = req.msg.data.reverse from rfl,
    List.reverse_reverse]
  rfl

/-! ### C10: what a successful prefix removal means -/

/-- If removal answered `some rest` with a non-empty normalized include, the
dot-slash-stripped path splits as include, one separator byte, then `rest`. -/
lemma remove_path_prefix_decomp (path0 pre0 rest : List Char)
    (h : remove_path_prefix path0 pre0 = some rest)
    (hne : normalize_pre pre0 ≠ []) :
    ∃ c, (c = '/' ∨ c = '\\') ∧
      remove_dot_slash path0 = normalize_pre pre0 ++ c :: rest := by
  simp only [ remove_path_prefix] at h
  split_ifs at h with h1 h2 h3 h4
  · exact absurd (by simp [normalize_pre, h1, strip_trailing_sep]) hne
  · -- the separator branch: `h2` gives the prefix, `h4` the separator byte
    obtain ⟨t, ht⟩ := h2
    have hlen : (strip_trailing_sep (remove_dot_slash pre0)).length <
        (remove_dot_slash path0).length := Nat.lt_of_not_le h3
    have htne : t ≠ [] := by
      intro hemp
      rw [hemp, List.append_nil] at ht
      rw [ht] at hlen
      exact Nat.lt_irrefl _ hlen
    obtain ⟨c, t', rfl⟩ := List.exists_cons_of_ne_nil htne
    have hidx : (remove_dot_slash path0)[(strip_trailing_sep (remove_dot_slash pre0)).length]? =
        some c := by
      rw [← ht, List.getElem?_append_right (le_refl _)]
      simp
    have hsep : c = '/' ∨ c = '\\' := by
      rw [hidx] at h4
      rcases h4 with h4 | h4
      · exact Or.inl (Option.some_injective _ h4.symm).symm
      · exact Or.inr (Option.some_injective _ h4.symm).symm
    have hdrop : List.drop ((strip_trailing_sep (remove_dot_slash pre0)).length + 1)
        (remove_dot_slash path0) = t' := by
      rw [← ht, show strip_trailing_sep (remove_dot_slash pre0) ++ c :: t' =
        (strip_trailing_sep (remove_dot_slash pre0) ++ [c]) ++ t' by simp]
      exact List.drop_left' (by simp)
    have hrest : rest = t' := by
      rw [hdrop] at h
      exact (Option.some_injective _ h).symm
    subst hrest
    refine ⟨c, hsep, ?_⟩
    unfold normalize_pre
    rw [← ht]

/-- Self-application of `remove_path_prefix` on a path with a non-empty
dot-slash-stripped form and no trailing separator yields `none`. -/
lemma remove_path_prefix_self (p : List Char) (h1 : remove_dot_slash p ≠ [])
    (h2 : (remove_dot_slash p).getLast? ≠ some '/')
    (h3 : (remove_dot_slash p).getLast? ≠ some '\\') :
    remove_path_prefix p p = none := by
  have hstrip : strip_trailing_sep (remove_dot_slash p) = remove_dot_slash p := by
    unfold strip_trailing_sep
    rw [if_neg]
    rintro (hc | hc)
    · exact h2 hc
    · exact h3 hc
  simp [ remove_path_prefix, h1, hstrip, List.prefix_refl, le_refl]

/-- An include whose dot-slash-stripped form is empty matches every path. -/
lemma remove_path_prefix_empty_pre (path0 pre0 : List Char)
    (h : remove_dot_slash pre0 = []) :
    remove_path_prefix path0 pre0 = some (remove_dot_slash path0) := by
  simp [ remove_path_prefix, h]

/-- Counterexample to claim C10 as stated: `remove_path_prefix("a/", "a/")`
returns `Some ""`, not `None`, even though the normalized form of `"a/"` is
non-empty — the trailing separator is stripped from the include but not from
the path, so a path ending in a separator is a proper prefix of itself. -/
theorem remove_path_prefix_self_not_none :
    remove_path_prefix ['a', '/'] ['a', '/'] = some [] ∧
    remove_dot_slash ['a', '/'] ≠ [] ∧
    normalize_pre ['a', '/'] ≠ [] := by
  refine ⟨by decide, by decide, by decide⟩

/-- Claim C10 (amended): if `remove_path_prefix(path, prefix) = Some rest` and
the normalized include (dot-slash strip plus one trailing-separator strip) is
non-empty, the dot-slash-stripped path is exactly that include, one `/` or `\`
byte, then `rest`; self-application yields `None` for every path whose
dot-slash-stripped form is non-empty and does not end in a separator (a path
ending in a separator instead yields `Some ""`); and an include whose
dot-slash-stripped form is empty yields `Some` of the dot-slash-stripped
path. -/
theorem remove_path_prefix_spec :
    (∀ path0 pre0 rest, remove_path_prefix path0 pre0 = some rest →
      normalize_pre pre0 ≠ [] →
      ∃ c, (c = '/' ∨ c = '\\') ∧
        remove_dot_slash path0 = normalize_pre pre0 ++ c :: rest) ∧
    (∀ p, remove_dot_slash p ≠ [] →
      (remove_dot_slash p).getLast? ≠ some '/' →
      (remove_dot_slash p).getLast? ≠ some '\\' →
      remove_path_prefix p p = none) ∧
    (∀ path0 pre0, remove_dot_slash pre0 = [] →
      remove_path_prefix path0 pre0 = some (remove_dot_slash path0)) :=
  ⟨remove_path_prefix_decomp, remove_path_prefix_self, remove_path_prefix_empty_pre⟩

/-- Witness for the amended claim C10 at the concrete inputs `"a/b"`/`"a"`
(decomposition), `"a"`/`"a"` (self-application), and `"a/b"`/`"./"` (empty
include). -/
theorem remove_path_prefix_spec_witness :
    (∃ c, (c = '/' ∨ c = '\\') ∧
      remove_dot_slash ['a', '/', 'b'] = normalize_pre ['a'] ++ c :: ['b']) ∧
    remove_path_prefix ['a'] ['a'] = none ∧
    remove_path_prefix ['a', '/', 'b'] ['.', '/'] =
      some (remove_dot_slash ['a', '/', 'b']) :=
  ⟨remove_path_prefix_spec.1 ['a', '/', 'b'] ['a'] ['b'] (by decide) (by decide),
   remove_path_prefix_spec.2.1 ['a'] (by decide) (by decide) (by decide),
   remove_path_prefix_spec.2.2 ['a', '/', 'b'] ['.', '/'] (by decide)⟩
